import Mathlib

/-!
# Verification of the instagram-analysis collection & aggregation pipeline

Shallow embedding of the collection/aggregation core of the
`shintairiku/instagram-analysis` repository:

* the SQL function `public.calculate_yoy_growth` and the unique
  constraints of the `instagram_posts`, `instagram_daily_stats` and
  `instagram_monthly_stats` tables (from the Supabase migration);
* the Next.js API route `POST /api/collection/accounts/[accountId]/refresh`
  (from `route.ts`), which proxies manual refreshes to the backend;
* backend components that the repository spec describes but whose code is
  not part of the sources at hand (lock manager, normalizer, aggregation
  writes); these are modelled from the spec and marked as such.

Dates are modelled abstractly: a calendar month is an integer month index
(so "month − 1 year" is subtraction of 12), and a calendar day is a
(month, day-of-month) pair.  SQL `numeric(5,2)` values are rationals with
an explicit range check; an SQL error is modelled as `none`.
-/

namespace InstagramAnalysis

/-- Rounding to 2 decimal places with ties away from zero: the behaviour of
PostgreSQL `round(x, 2)` on `numeric` arguments. -/
def round2 (x : ℚ) : ℚ :=
  if 0 ≤ x then (⌊x * 100 + 1 / 2⌋ : ℚ) / 100
  else -((⌊-x * 100 + 1 / 2⌋ : ℚ) / 100)

/-- Range check of the SQL type `numeric(5,2)`: 5 digits of precision with 2
after the decimal point bounds the absolute value by 999.99.  A value outside
the range makes PostgreSQL raise a numeric-field-overflow error, modelled as
`none`.  On values that already have at most 2 decimals (everything this
development stores) the check is equivalent to `|x| < 1000`. -/
def numeric52 (x : ℚ) : Option ℚ :=
  if |x| < 1000 then some x else none

/-- A calendar day, abstractly: the index of its month and the day of month.
`date_trunc` to month granularity keeps only the `month` component. -/
structure Day where
  month : Int
  dom : Nat
deriving DecidableEq, Repr

/-- A row of `instagram_monthly_stats` (migration, lines 530-554).
`stats_month` is a month-truncated date, modelled as the month index. -/
structure MonthlyStatsRow where
  account_id : Nat
  stats_month : Int
  avg_followers_count : Int
  avg_following_count : Int
  follower_growth : Int
  follower_growth_rate : ℚ
  total_posts : Int
  total_likes : Int
  total_comments : Int
  total_reach : Int
  avg_engagement_rate : ℚ
  best_performing_day : Option Day
deriving DecidableEq, Repr

/-- `select * into ... from instagram_monthly_stats where account_id = a and
stats_month = m`.  The constraint `uq_account_monthly_stats` guarantees at
most one matching row; `select into` takes the first one and leaves the
record `null` (here: `none`) when nothing matches. -/
def findMonthly (table : List MonthlyStatsRow) (a : Nat) (m : Int) :
    Option MonthlyStatsRow :=
  table.find? (fun r => r.account_id == a && r.stats_month == m)

/-- One CASE arm of `calculate_yoy_growth`: when the previous value is
positive, the relative delta `(cur - prev) / prev * 100` rounded to 2
decimals and cast to `numeric(5,2)` (which can overflow); otherwise 0. -/
def yoyDelta (cur prev : ℚ) : Option ℚ :=
  if 0 < prev then numeric52 (round2 ((cur - prev) / prev * 100))
  else some 0

/-- The `select` of the non-null branch of `calculate_yoy_growth`: the three
guarded year-over-year deltas (followers, engagement rate, post count).  A
numeric-field overflow in any of them aborts the whole query, modelled by
`Option.bind`. -/
def yoyTriple (current_stats previous_stats : MonthlyStatsRow) :
    Option (ℚ × ℚ × ℚ) :=
  (yoyDelta (current_stats.avg_followers_count : ℚ)
      (previous_stats.avg_followers_count : ℚ)).bind fun f =>
    (yoyDelta current_stats.avg_engagement_rate
        previous_stats.avg_engagement_rate).bind fun e =>
      (yoyDelta (current_stats.total_posts : ℚ)
          (previous_stats.total_posts : ℚ)).bind fun p =>
        some (f, e, p)

/-- Shallow embedding of the SQL function `public.calculate_yoy_growth`
(migration, lines 583-626).  It looks up the monthly-stats row of the target
month and of the month 12 months earlier; if either is absent it returns the
all-zero triple, otherwise the three guarded year-over-year deltas. -/
def calculate_yoy_growth (table : List MonthlyStatsRow) (p_account_id : Nat)
    (p_target_month : Int) : Option (ℚ × ℚ × ℚ) :=
  match findMonthly table p_account_id p_target_month,
        findMonthly table p_account_id (p_target_month - 12) with
  | some current_stats, some previous_stats =>
      yoyTriple current_stats previous_stats
  | _, _ => some (0, 0, 0)

/-- Monthly-stats row used in concrete counterexamples and witnesses:
all fields zero except the key and the three fields `calculate_yoy_growth`
reads. -/
def mkMonthlyRow (a : Nat) (m : Int) (followers : Int) (engagement : ℚ)
    (posts : Int) : MonthlyStatsRow :=
  { account_id := a, stats_month := m, avg_followers_count := followers,
    avg_following_count := 0, follower_growth := 0, follower_growth_rate := 0,
    total_posts := posts, total_likes := 0, total_comments := 0,
    total_reach := 0, avg_engagement_rate := engagement,
    best_performing_day := none }

/-- Table where the year-over-year follower delta is 2100 %: month 24 has 110
average followers against 5 a year earlier. -/
def yoyOverflowTable : List MonthlyStatsRow :=
  [mkMonthlyRow 1 24 110 0 0, mkMonthlyRow 1 12 5 0 0]

/-- Table with well-behaved year-over-year deltas for both months of
account 1. -/
def yoyModerateTable : List MonthlyStatsRow :=
  [mkMonthlyRow 1 24 110 3 8, mkMonthlyRow 1 12 100 2 10]

/-- Table whose prior-year row has all three baselines equal to zero. -/
def yoyZeroBaselineTable : List MonthlyStatsRow :=
  [mkMonthlyRow 1 24 110 5 7, mkMonthlyRow 1 12 0 0 0]

/-- The parsed JSON request body of the refresh route (`RefreshRequestBody`
in route.ts, lines 3-7): every field optional. -/
structure RefreshRequestBody where
  window_days : Option Int
  max_posts : Option Int
  force : Option Bool
deriving DecidableEq, Repr

/-- The empty object `\x7b\x7d` that the route falls back to when the request
body is missing or not valid JSON (route.ts lines 30-35). -/
def emptyRefreshBody : RefreshRequestBody :=
  { window_days := none, max_posts := none, force := none }

/-- The JSON body the route forwards to the backend (route.ts lines 47-52). -/
structure ForwardedBody where
  window_days : Int
  max_posts : Int
  dry_run : Bool
  force : Bool
deriving DecidableEq, Repr

/-- The defaulting of route.ts lines 47-52: `window_days` falls back to 30,
`max_posts` to 50, `dry_run` is the constant false, and `force` is coerced
with `!!` (false when absent). -/
def refreshForwardedBody (body : RefreshRequestBody) : ForwardedBody :=
  { window_days := body.window_days.getD 30,
    max_posts := body.max_posts.getD 50,
    dry_run := false,
    force := body.force.getD false }

/-- The backend response as the route observes it: HTTP status, optional
Retry-After header, the JSON body when it parses (`none` otherwise), and the
status text used as fallback detail. -/
structure UpstreamResponse where
  status : Nat
  retryAfter : Option String
  jsonBody : Option String
  statusText : String
deriving DecidableEq, Repr

/-- Body of a response of the route: a `detail` object built by the route
itself, or the upstream JSON passed through unchanged. -/
inductive ResponseData where
  | detail (msg : String)
  | passthrough (json : String)
deriving DecidableEq, Repr

/-- A response of the route: status, optional Retry-After header, data. -/
structure RouteResponse where
  status : Nat
  retryAfter : Option String
  data : ResponseData
deriving DecidableEq, Repr

/-- route.ts lines 60-65: pass the upstream JSON through, falling back to a
detail object holding the upstream status text when it does not parse. -/
def upstreamData (resp : UpstreamResponse) : ResponseData :=
  match resp.jsonBody with
  | some j => ResponseData.passthrough j
  | none => ResponseData.detail resp.statusText

/-- route.ts line 14: the `accountId` path parameter arrives as a string, an
array of strings, or undefined; an array contributes its first element
(undefined when empty). -/
def extractAccountId (accountId : Option (String ⊕ List String)) :
    Option String :=
  match accountId with
  | none => none
  | some (Sum.inl s) => some s
  | some (Sum.inr l) => l.head?

/-- Shallow embedding of the POST handler of
`/api/collection/accounts/[accountId]/refresh` (route.ts lines 9-68).
`accountId` is the path parameter, `apiUrl` and `token` the environment
variables `NEXT_PUBLIC_API_URL` and `COLLECTION_TRIGGER_TOKEN`, `body?` the
request body (`none` when missing or not valid JSON) and `upstream` the
backend, as a function of base URL, account id and forwarded body.  The
second component of the result is the backend call the route made, `none`
when it answered without contacting the backend.  JavaScript truthiness
makes both `none` and the empty string count as a missing `accountId` or
token. -/
def refreshPOST (accountId : Option (String ⊕ List String))
    (apiUrl : Option String) (token : Option String)
    (body? : Option RefreshRequestBody)
    (upstream : String → String → ForwardedBody → UpstreamResponse) :
    RouteResponse × Option (String × String × ForwardedBody) :=
  match extractAccountId accountId with
  | none =>
      ({ status := 400, retryAfter := none,
         data := ResponseData.detail ("accountId is required") }, none)
  | some aid =>
      if aid = "" then
        ({ status := 400, retryAfter := none,
           data := ResponseData.detail ("accountId is required") }, none)
      else if token.getD "" = "" then
        ({ status := 500, retryAfter := none,
           data := ResponseData.detail
             ("COLLECTION_TRIGGER_TOKEN is not configured") }, none)
      else
        let backendBaseUrl := apiUrl.getD ("http://localhost:8000")
        let fwd := refreshForwardedBody (body?.getD emptyRefreshBody)
        let resp := upstream backendBaseUrl aid fwd
        ({ status := resp.status, retryAfter := resp.retryAfter,
           data := upstreamData resp }, some (backendBaseUrl, aid, fwd))

/-- A row of `instagram_daily_stats` (migration, lines 502-521). -/
structure DailyStat where
  account_id : Nat
  stats_date : Day
  followers_count : Int
  following_count : Int
  media_count : Int
  posts_count : Int
  total_likes : Int
  total_comments : Int
  media_type_distribution : Option String
  data_sources : Option String
deriving DecidableEq, Repr

/-- The unique key of `uq_account_daily_stats`: (account_id, stats_date). -/
def dailyKey (r : DailyStat) : Nat × Day :=
  (r.account_id, r.stats_date)

/-- A row of `instagram_posts` (migration, lines 448-459). -/
structure Post where
  instagram_post_id : String
  account_id : Nat
  media_type : String
  caption : Option String
  posted_at : Int
deriving DecidableEq, Repr

/-- The unique key of `instagram_posts`: the external post id
(`instagram_post_id varchar(50) not null unique`). -/
def postKey (p : Post) : String :=
  p.instagram_post_id

/-- The unique key of `uq_account_monthly_stats`:
(account_id, stats_month). -/
def monthlyKey (r : MonthlyStatsRow) : Nat × Int :=
  (r.account_id, r.stats_month)

/-- Upsert into a table whose conflict-resolution boundary is the key `key`:
when a row with the written row's key exists it is replaced in place,
otherwise the row is appended.  This is the behaviour of an insert with
`on conflict ... do update` against a unique constraint on `key`. -/
def upsertBy {α κ : Type} [DecidableEq κ] (key : α → κ) (t : List α)
    (r : α) : List α :=
  if t.any (fun s => decide (key s = key r)) then
    t.map (fun s => if key s = key r then r else s)
  else t ++ [r]

/-- At most one row per key: all keys of the table are pairwise distinct. -/
def UniqueBy {α κ : Type} (key : α → κ) (t : List α) : Prop :=
  t.Pairwise (fun a b => key a ≠ key b)

/-- Modelled from the spec: the repository write of a DailyStat (absent from
the sources at hand) is an upsert keyed on the unique constraint
`uq_account_daily_stats` (account, calendar day), which is in the
migration. -/
def upsertDailyStat : List DailyStat → DailyStat → List DailyStat :=
  upsertBy dailyKey

/-- Modelled from the spec: the repository write of a MonthlyStat (absent
from the sources at hand) is an upsert keyed on the unique constraint
`uq_account_monthly_stats` (account, calendar month), which is in the
migration. -/
def upsertMonthlyStat : List MonthlyStatsRow → MonthlyStatsRow →
    List MonthlyStatsRow :=
  upsertBy monthlyKey

/-- Modelled from the spec: the repository write of a Post (absent from the
sources at hand) is an upsert keyed on the unique external post id, which is
in the migration; posts are created by the normalizer and never deleted by
the core. -/
def upsertPost : List Post → Post → List Post :=
  upsertBy postKey

/-- One collection run persists a sequence of fetched posts; runs with
overlapping fetch windows simply upsert the same external post id again. -/
def runCollection (t : List Post) (ps : List Post) : List Post :=
  ps.foldl upsertPost t

/-- A table holds some row with key `k`. -/
def HasKey {α κ : Type} (key : α → κ) (t : List α) (k : κ) : Prop :=
  ∃ s ∈ t, key s = k

/-- The DailyStat rows of one account in one calendar month. -/
def monthDailyRows (t : List DailyStat) (a : Nat) (m : Int) :
    List DailyStat :=
  t.filter (fun r => r.account_id == a && r.stats_date.month == m)

/-- Integer average of a list of integers, 0 when the list is empty: the
value an AVG(...) over these rows stores into an integer column. -/
def intAvg (xs : List Int) : Int :=
  if xs.length = 0 then 0 else xs.sum / (xs.length : Int)

/-- The monthly aggregates that are derivable from DailyStat rows.  (The
monthly table's total_reach and avg_engagement_rate columns have no
counterpart in the simplified daily schema of the migration and are outside
this model.) -/
structure MonthlyDerived where
  avg_followers_count : Int
  avg_following_count : Int
  follower_growth : Int
  follower_growth_rate : ℚ
  total_posts : Int
  total_likes : Int
  total_comments : Int
  best_performing_day : Option Day
deriving DecidableEq, Repr

/-- The date of the row with the highest engagement (likes + comments)
among the given rows: the spec's best-performing day. -/
def bestPerformingDay (rows : List DailyStat) : Option Day :=
  (rows.foldl (fun best r =>
    match best with
    | none => some r
    | some b =>
        if b.total_likes + b.total_comments <
            r.total_likes + r.total_comments then some r
        else some b) none).map (fun r => r.stats_date)

/-- Modelled from the spec: `AggregationEngine.recomputeMonthly` (§4.4),
absent from the sources at hand.  Averages and sums the month's DailyStat
rows; `follower_growth` is `avg_followers(month) - avg_followers(month-1)`
and `growth_rate` is `follower_growth / avg_followers(month-1) * 100`
(0 when the denominator is 0), rounded to 2 decimals. -/
def recomputeMonthly (t : List DailyStat) (a : Nat) (m : Int) :
    MonthlyDerived :=
  let rows := monthDailyRows t a m
  let prevRows := monthDailyRows t a (m - 1)
  let avgF := intAvg (rows.map (fun r => r.followers_count))
  let avgPrev := intAvg (prevRows.map (fun r => r.followers_count))
  let growth := avgF - avgPrev
  { avg_followers_count := avgF,
    avg_following_count := intAvg (rows.map (fun r => r.following_count)),
    follower_growth := growth,
    follower_growth_rate :=
      if avgPrev = 0 then 0
      else round2 ((growth : ℚ) / (avgPrev : ℚ) * 100),
    total_posts := (rows.map (fun r => r.posts_count)).sum,
    total_likes := (rows.map (fun r => r.total_likes)).sum,
    total_comments := (rows.map (fun r => r.total_comments)).sum,
    best_performing_day := bestPerformingDay rows }

/-- A DailyStat row with the given account, date and follower count, all
other columns zeroed, for concrete tables. -/
def dayRow (a : Nat) (d : Day) (followers : Int) : DailyStat :=
  { account_id := a, stats_date := d, followers_count := followers,
    following_count := 0, media_count := 0, posts_count := 0,
    total_likes := 0, total_comments := 0,
    media_type_distribution := none, data_sources := none }

/-- Daily table with a row in month 24 and one in month 23 of account 1. -/
def dailyTableWithPrev : List DailyStat :=
  [dayRow 1 (Day.mk 24 1) 110, dayRow 1 (Day.mk 23 1) 100]

/-- Daily table with only the month-24 row of account 1: it agrees with
`dailyTableWithPrev` on month 24. -/
def dailyTableNoPrev : List DailyStat :=
  [dayRow 1 (Day.mk 24 1) 110]

/-- `dailyTableWithPrev` plus a row of another account, which must not
influence account 1's monthly stats. -/
def dailyTableOtherAccount : List DailyStat :=
  dailyTableWithPrev ++ [dayRow 2 (Day.mk 24 1) 50]

/-- A raw provider metrics record as the normalizer receives it: counters
may be negative when the provider misbehaves.
Modelled from the spec (§4.3); the normalizer code is not among the sources
at hand. -/
structure RawMetrics where
  likes : Int
  comments : Int
  saved : Int
  shares : Int
  views : Int
  reach : Int
  total_interactions : Int
  follows : Int
  profile_visits : Int
  profile_activity : Int
deriving DecidableEq, Repr

/-- The metric columns of `instagram_post_metrics` (migration, lines
470-491) that the normalizer fills. -/
structure MetricSnapshot where
  likes : Int
  comments : Int
  saved : Int
  shares : Int
  views : Int
  reach : Int
  total_interactions : Int
  follows : Int
  profile_visits : Int
  profile_activity : Int
  engagement_rate : ℚ
deriving DecidableEq, Repr

/-- Modelled from the spec: `MetricsNormalizer` (§4.3), absent from the
sources at hand.  Clamps every negative counter to zero and computes
`engagement_rate = total_interactions / reach` when reach > 0 else 0,
rounded to 2 decimal places. -/
def normalizeMetrics (r : RawMetrics) : MetricSnapshot :=
  let likes := max r.likes 0
  let comments := max r.comments 0
  let saved := max r.saved 0
  let shares := max r.shares 0
  let views := max r.views 0
  let reach := max r.reach 0
  let total_interactions := max r.total_interactions 0
  let follows := max r.follows 0
  let profile_visits := max r.profile_visits 0
  let profile_activity := max r.profile_activity 0
  { likes := likes, comments := comments, saved := saved, shares := shares,
    views := views, reach := reach,
    total_interactions := total_interactions, follows := follows,
    profile_visits := profile_visits, profile_activity := profile_activity,
    engagement_rate :=
      if 0 < reach then round2 ((total_interactions : ℚ) / (reach : ℚ))
      else 0 }

/-- A raw record with a negative likes counter and zero reach, the spec's
normalization-bounds example. -/
def rawNegExample : RawMetrics :=
  { likes := -5, comments := 3, saved := 0, shares := 0, views := 12,
    reach := 0, total_interactions := 10, follows := 0,
    profile_visits := 0, profile_activity := 0 }

/-- Outcome of the backend manual-refresh service.
Modelled from the spec: `manualRefresh` returns success, `Conflict` (already
running), or `TooSoon(retryAfterSeconds)`; the backend service code is not
among the sources at hand. -/
inductive RefreshOutcome where
  | success
  | conflict
  | tooSoon (retryAfterSeconds : Nat)
deriving DecidableEq, Repr

/-- Modelled from the spec: the backend HTTP boundary of the manual-refresh
endpoint (absent from the sources at hand) maps the three outcomes to HTTP
200 / 409 / 429 and attaches a Retry-After header carrying the wait to the
TooSoon case. -/
def backendRefreshBoundary (o : RefreshOutcome) : UpstreamResponse :=
  match o with
  | RefreshOutcome.success =>
      { status := 200, retryAfter := none,
        jsonBody := some ("run report"), statusText := "OK" }
  | RefreshOutcome.conflict =>
      { status := 409, retryAfter := none,
        jsonBody := some ("refresh already running"),
        statusText := "Conflict" }
  | RefreshOutcome.tooSoon s =>
      { status := 429, retryAfter := some (toString s),
        jsonBody := some ("manual refresh too soon"),
        statusText := "Too Many Requests" }

/-- Result of `CollectionLockManager.tryAcquire`.
Modelled from the spec (§4.1); the lock-manager code is not among the
sources at hand. -/
inductive AcquireResult where
  | acquired
  | deniedAlreadyRunning
  | deniedTooSoon (retryAfterSeconds : Nat)
deriving DecidableEq, Repr

/-- Modelled from the spec: `CollectionLockManager.tryAcquire` (§4.1),
absent from the sources at hand.  Denies with AlreadyRunning while another
run holds the account's lock; denies with TooSoon when now minus the start
of the last successful run is below `minIntervalSeconds` and the caller did
not pass force, carrying the remaining wait. -/
def tryAcquire (running : Bool) (lastSuccessStart : Option Nat) (now : Nat)
    (minIntervalSeconds : Nat) (force : Bool) : AcquireResult :=
  if running then AcquireResult.deniedAlreadyRunning
  else
    match lastSuccessStart with
    | none => AcquireResult.acquired
    | some t0 =>
        if force = false ∧ now - t0 < minIntervalSeconds then
          AcquireResult.deniedTooSoon (minIntervalSeconds - (now - t0))
        else AcquireResult.acquired

/-- Modelled from the spec: `CollectionCoordinator.manualRefresh` (§4.2) at
the admission level, absent from the sources at hand.  The lock decision
determines the structured result; an admitted call runs the collection and
reports success. -/
def manualRefresh (running : Bool) (lastSuccessStart : Option Nat)
    (now : Nat) (minIntervalSeconds : Nat) (force : Bool) : RefreshOutcome :=
  match tryAcquire running lastSuccessStart now minIntervalSeconds force with
  | AcquireResult.acquired => RefreshOutcome.success
  | AcquireResult.deniedAlreadyRunning => RefreshOutcome.conflict
  | AcquireResult.deniedTooSoon s => RefreshOutcome.tooSoon s

end InstagramAnalysis

namespace InstagramAnalysis

example : round2 (12345 / 1000 : ℚ) = 1235 / 100 := by
  rw [round2]
  norm_num
example : round2 (-12345 / 1000 : ℚ) = -1235 / 100 := by
  rw [round2]
  norm_num
example : yoyDelta 110 5 = none := by
  rw [yoyDelta, numeric52, round2]
  norm_num
example : yoyDelta 10 0 = some 0 := by
  rw [yoyDelta]
  norm_num
example : calculate_yoy_growth [] 1 24 = some (0, 0, 0) := by
  rw [calculate_yoy_growth, findMonthly]
  rfl

lemma round2_zero : round2 0 = 0 := by
  rw [round2]
  norm_num

/-- A non-positive previous value short-circuits the CASE arm to 0. -/
lemma yoyDelta_of_nonpos (cur prev : ℚ) (h : prev ≤ 0) :
    yoyDelta cur prev = some 0 := by
  rw [yoyDelta, if_neg (not_lt.mpr h)]

/-- With a non-negative previous value, the CASE arm agrees with the plain
rounded percentage formula (at `prev = 0` both sides are 0, since division
by zero is 0 in `ℚ`), as long as the rounded delta fits `numeric(5,2)`. -/
lemma yoyDelta_eq_round2 (cur prev : ℚ) (h0 : 0 ≤ prev)
    (h1 : |round2 ((cur - prev) / prev * 100)| < 1000) :
    yoyDelta cur prev = some (round2 ((cur - prev) / prev * 100)) := by
  rcases lt_or_eq_of_le h0 with hlt | heq
  · rw [yoyDelta, if_pos hlt, numeric52, if_pos h1]
  · subst heq
    rw [yoyDelta, if_neg (lt_irrefl 0)]
    rw [div_zero, zero_mul, round2_zero]

/-- Claim C1: for every account and target month, if either the monthly-stats
row of the target month or the row of the month 12 months earlier is absent,
`calculate_yoy_growth` returns the all-zero delta triple and does not raise
an error. -/
theorem yoy_absent_month_all_zero (table : List MonthlyStatsRow) (a : Nat)
    (m : Int)
    (h : findMonthly table a m = none ∨ findMonthly table a (m - 12) = none) :
    calculate_yoy_growth table a m = some (0, 0, 0) := by
  rw [calculate_yoy_growth]
  rcases h with h | h
  · rw [h]
  · rw [h]
    rcases findMonthly table a m with _ | c <;> rfl

/-- Witness for C1 on the empty table: there is no row at all, so the result
is the all-zero triple. -/
theorem yoy_absent_month_all_zero_witness :
    calculate_yoy_growth [] 3 24 = some (0, 0, 0) :=
  yoy_absent_month_all_zero [] 3 24 (Or.inl rfl)

/-- Counterexample to claim C2 as stated: with both rows present and a
follower delta of 2100 %, the `numeric(5,2)` cast overflows and the SQL
function raises an error (modelled as `none`) instead of returning the
rounded percentage triple `(2100, 0, 0)`. -/
theorem yoy_formula_overflow_counterexample :
    calculate_yoy_growth yoyOverflowTable 1 24 = none ∧
      round2 ((((110 : ℚ) - 5) / 5 * 100)) = 2100 := by
  have hf : yoyDelta ((110 : Int) : ℚ) ((5 : Int) : ℚ) = none := by
    rw [yoyDelta, if_pos (by norm_num), numeric52]
    norm_num [round2]
  constructor
  · rw [calculate_yoy_growth,
        show findMonthly yoyOverflowTable 1 24 =
          some (mkMonthlyRow 1 24 110 0 0) from rfl,
        show findMonthly yoyOverflowTable 1 (24 - 12) =
          some (mkMonthlyRow 1 12 5 0 0) from rfl]
    show yoyTriple (mkMonthlyRow 1 24 110 0 0) (mkMonthlyRow 1 12 5 0 0) = none
    rw [yoyTriple]
    simp only [mkMonthlyRow]
    rw [hf]
    rfl
  · rw [round2]
    norm_num

/-- Claim C2 (amended): when both the target month's and the prior-year
month's rows exist, the prior-year baselines are non-negative, and each
rounded percentage delta fits `numeric(5,2)`, `calculate_yoy_growth` returns
exactly the triple of percentage deltas `(current - previous) / previous *
100`, each rounded to 2 decimal places. -/
theorem yoy_percentage_formula (table : List MonthlyStatsRow) (a : Nat)
    (m : Int) (c p : MonthlyStatsRow)
    (hc : findMonthly table a m = some c)
    (hp : findMonthly table a (m - 12) = some p)
    (hf0 : 0 ≤ p.avg_followers_count)
    (he0 : 0 ≤ p.avg_engagement_rate)
    (hp0 : 0 ≤ p.total_posts)
    (hf1 : |round2 (((c.avg_followers_count : ℚ) - (p.avg_followers_count : ℚ)) /
      (p.avg_followers_count : ℚ) * 100)| < 1000)
    (he1 : |round2 ((c.avg_engagement_rate - p.avg_engagement_rate) /
      p.avg_engagement_rate * 100)| < 1000)
    (hp1 : |round2 (((c.total_posts : ℚ) - (p.total_posts : ℚ)) /
      (p.total_posts : ℚ) * 100)| < 1000) :
    calculate_yoy_growth table a m =
      some (round2 (((c.avg_followers_count : ℚ) - (p.avg_followers_count : ℚ)) /
              (p.avg_followers_count : ℚ) * 100),
            round2 ((c.avg_engagement_rate - p.avg_engagement_rate) /
              p.avg_engagement_rate * 100),
            round2 (((c.total_posts : ℚ) - (p.total_posts : ℚ)) /
              (p.total_posts : ℚ) * 100)) := by
  have hf0q : (0 : ℚ) ≤ (p.avg_followers_count : ℚ) := by exact_mod_cast hf0
  have hp0q : (0 : ℚ) ≤ (p.total_posts : ℚ) := by exact_mod_cast hp0
  rw [calculate_yoy_growth, hc, hp]
  show yoyTriple c p = _
  rw [yoyTriple, yoyDelta_eq_round2 _ _ hf0q hf1,
      yoyDelta_eq_round2 _ _ he0 he1, yoyDelta_eq_round2 _ _ hp0q hp1]
  rfl

/-- Witness for the amended C2: followers 100 → 110, engagement rate 2 → 3,
posts 10 → 8, giving deltas (10 %, 50 %, −20 %). -/
theorem yoy_percentage_formula_witness :
    calculate_yoy_growth yoyModerateTable 1 24 = some (10, 50, -20) := by
  have h := yoy_percentage_formula yoyModerateTable 1 24
    (mkMonthlyRow 1 24 110 3 8) (mkMonthlyRow 1 12 100 2 10) rfl rfl
    (by norm_num [mkMonthlyRow]) (by norm_num [mkMonthlyRow])
    (by norm_num [mkMonthlyRow])
    (by simp only [mkMonthlyRow]; norm_num [round2])
    (by simp only [mkMonthlyRow]; norm_num [round2])
    (by simp only [mkMonthlyRow]; norm_num [round2])
  rw [h]
  simp only [mkMonthlyRow]
  norm_num [round2]

/-- Inversion for `yoyTriple`: a successful triple pins down each guarded
delta componentwise. -/
lemma yoyTriple_eq_some (c p : MonthlyStatsRow) (f e po : ℚ)
    (h : yoyTriple c p = some (f, e, po)) :
    yoyDelta (c.avg_followers_count : ℚ) (p.avg_followers_count : ℚ) = some f ∧
      yoyDelta c.avg_engagement_rate p.avg_engagement_rate = some e ∧
      yoyDelta (c.total_posts : ℚ) (p.total_posts : ℚ) = some po := by
  rw [yoyTriple] at h
  rcases h1 : yoyDelta (c.avg_followers_count : ℚ) (p.avg_followers_count : ℚ)
      with _ | vf <;> rw [h1] at h
  · simp at h
  rcases h2 : yoyDelta c.avg_engagement_rate p.avg_engagement_rate
      with _ | ve <;> rw [h2] at h
  · simp at h
  rcases h3 : yoyDelta (c.total_posts : ℚ) (p.total_posts : ℚ)
      with _ | vp <;> rw [h3] at h
  · simp at h
  simp only [Option.some_bind, Option.some.injEq, Prod.mk.injEq] at h
  obtain ⟨rfl, rfl, rfl⟩ := h
  exact ⟨rfl, rfl, rfl⟩

/-- Claim C9: with both rows present, each delta of `calculate_yoy_growth` is
individually guarded by its own prior-year baseline: a zero baseline makes
the corresponding CASE arm return 0 outright (the division is never
evaluated), and a zero baseline component of a successful result is 0. -/
theorem yoy_zero_baseline_guard (table : List MonthlyStatsRow) (a : Nat)
    (m : Int) (c p : MonthlyStatsRow)
    (hc : findMonthly table a m = some c)
    (hp : findMonthly table a (m - 12) = some p) :
    (p.avg_followers_count = 0 →
      yoyDelta (c.avg_followers_count : ℚ) (p.avg_followers_count : ℚ) = some 0) ∧
    (p.avg_engagement_rate = 0 →
      yoyDelta c.avg_engagement_rate p.avg_engagement_rate = some 0) ∧
    (p.total_posts = 0 →
      yoyDelta (c.total_posts : ℚ) (p.total_posts : ℚ) = some 0) ∧
    (∀ f e po : ℚ, calculate_yoy_growth table a m = some (f, e, po) →
      (p.avg_followers_count = 0 → f = 0) ∧
      (p.avg_engagement_rate = 0 → e = 0) ∧
      (p.total_posts = 0 → po = 0)) := by
  refine ⟨fun h => yoyDelta_of_nonpos _ _ (by rw [h]; norm_num),
          fun h => yoyDelta_of_nonpos _ _ (by rw [h]),
          fun h => yoyDelta_of_nonpos _ _ (by rw [h]; norm_num), ?_⟩
  intro f e po hres
  rw [calculate_yoy_growth, hc, hp] at hres
  replace hres : yoyTriple c p = some (f, e, po) := hres
  obtain ⟨hdf, hde, hdp⟩ := yoyTriple_eq_some c p f e po hres
  refine ⟨fun h0 => ?_, fun h0 => ?_, fun h0 => ?_⟩
  · have hz := yoyDelta_of_nonpos (c.avg_followers_count : ℚ)
      (p.avg_followers_count : ℚ) (by rw [h0]; norm_num)
    rw [hdf] at hz
    exact Option.some.inj hz
  · have hz := yoyDelta_of_nonpos c.avg_engagement_rate p.avg_engagement_rate
      (by rw [h0])
    rw [hde] at hz
    exact Option.some.inj hz
  · have hz := yoyDelta_of_nonpos (c.total_posts : ℚ) (p.total_posts : ℚ)
      (by rw [h0]; norm_num)
    rw [hdp] at hz
    exact Option.some.inj hz

/-- Witness for C9: a prior-year row with all baselines zero makes every
guarded delta 0. -/
theorem yoy_zero_baseline_guard_witness :
    yoyDelta ((110 : Int) : ℚ) ((0 : Int) : ℚ) = some 0 ∧
    yoyDelta (5 : ℚ) (0 : ℚ) = some 0 ∧
    yoyDelta ((7 : Int) : ℚ) ((0 : Int) : ℚ) = some 0 := by
  have h := yoy_zero_baseline_guard yoyZeroBaselineTable 1 24
    (mkMonthlyRow 1 24 110 5 7) (mkMonthlyRow 1 12 0 0 0) rfl rfl
  exact ⟨h.1 rfl, h.2.1 rfl, h.2.2.1 rfl⟩

/-- In the happy path (a non-empty account id and a non-empty token) the
route calls the backend once with the defaulted body and passes status,
Retry-After header and data back unchanged. -/
lemma refreshPOST_ok (aid : String) (apiUrl : Option String) (tok : String)
    (body? : Option RefreshRequestBody)
    (upstream : String → String → ForwardedBody → UpstreamResponse)
    (haid : aid ≠ "") (htok : tok ≠ "") :
    refreshPOST (some (Sum.inl aid)) apiUrl (some tok) body? upstream =
      ({ status := (upstream (apiUrl.getD ("http://localhost:8000")) aid
            (refreshForwardedBody (body?.getD emptyRefreshBody))).status,
         retryAfter := (upstream (apiUrl.getD ("http://localhost:8000")) aid
            (refreshForwardedBody (body?.getD emptyRefreshBody))).retryAfter,
         data := upstreamData (upstream (apiUrl.getD ("http://localhost:8000"))
            aid (refreshForwardedBody (body?.getD emptyRefreshBody))) },
       some (apiUrl.getD ("http://localhost:8000"), aid,
         refreshForwardedBody (body?.getD emptyRefreshBody))) := by
  rw [refreshPOST]
  show (if aid = "" then _
    else if (some tok).getD "" = "" then _ else _) = _
  rw [if_neg haid, show (some tok).getD "" = tok from rfl, if_neg htok]

/-- Claim C10: a missing or unparseable JSON body is treated exactly as an
empty body; every request the route forwards to the backend carries
`window_days` defaulting to 30, `max_posts` defaulting to 50, `force`
coerced to a boolean (false when absent) and `dry_run` fixed to false; and
a missing `accountId` path parameter is answered with status 400 without
contacting the backend. -/
theorem refresh_route_body_contract
    (accountId : Option (String ⊕ List String)) (apiUrl : Option String)
    (token : Option String) (body? : Option RefreshRequestBody)
    (upstream : String → String → ForwardedBody → UpstreamResponse) :
    refreshPOST accountId apiUrl token none upstream =
      refreshPOST accountId apiUrl token (some emptyRefreshBody) upstream ∧
    (∀ call, (refreshPOST accountId apiUrl token body? upstream).2 = some call →
      call.2.2.window_days = (body?.getD emptyRefreshBody).window_days.getD 30 ∧
      call.2.2.max_posts = (body?.getD emptyRefreshBody).max_posts.getD 50 ∧
      call.2.2.force = (body?.getD emptyRefreshBody).force.getD false ∧
      call.2.2.dry_run = false) ∧
    (refreshPOST none apiUrl token body? upstream).1.status = 400 ∧
    (refreshPOST none apiUrl token body? upstream).2 = none := by
  refine ⟨rfl, ?_, rfl, rfl⟩
  intro call hcall
  rcases h : extractAccountId accountId with _ | aid
  · simp only [refreshPOST, h] at hcall
    exact absurd hcall (by simp)
  · simp only [refreshPOST, h] at hcall
    by_cases ha : aid = ""
    · rw [if_pos ha] at hcall
      exact absurd hcall (by simp)
    · rw [if_neg ha] at hcall
      by_cases ht : token.getD "" = ""
      · rw [if_pos ht] at hcall
        exact absurd hcall (by simp)
      · rw [if_neg ht] at hcall
        simp at hcall
        rcases hcall with rfl
        simp [refreshForwardedBody]

/-- Claim C3: every manualRefresh call yields success, Conflict or TooSoon
with a wait; through the backend HTTP boundary and the proxy route these
surface as status 200, 409 and 429, the TooSoon response carrying a
Retry-After header with the exact wait. -/
theorem manual_refresh_http_mapping (running : Bool)
    (lastSuccessStart : Option Nat) (now minIntervalSeconds : Nat)
    (force : Bool) (o : RefreshOutcome)
    (ho : manualRefresh running lastSuccessStart now minIntervalSeconds
      force = o)
    (aid : String) (apiUrl : Option String) (tok : String)
    (body? : Option RefreshRequestBody) (haid : aid ≠ "") (htok : tok ≠ "") :
    (o = RefreshOutcome.success →
      (refreshPOST (some (Sum.inl aid)) apiUrl (some tok) body?
        (fun _ _ _ => backendRefreshBoundary o)).1.status = 200) ∧
    (o = RefreshOutcome.conflict →
      (refreshPOST (some (Sum.inl aid)) apiUrl (some tok) body?
        (fun _ _ _ => backendRefreshBoundary o)).1.status = 409) ∧
    (∀ s, o = RefreshOutcome.tooSoon s →
      (refreshPOST (some (Sum.inl aid)) apiUrl (some tok) body?
        (fun _ _ _ => backendRefreshBoundary o)).1.status = 429 ∧
      (refreshPOST (some (Sum.inl aid)) apiUrl (some tok) body?
        (fun _ _ _ => backendRefreshBoundary o)).1.retryAfter =
          some (toString s)) ∧
    ((refreshPOST (some (Sum.inl aid)) apiUrl (some tok) body?
        (fun _ _ _ => backendRefreshBoundary o)).1.status = 200 ∨
      (refreshPOST (some (Sum.inl aid)) apiUrl (some tok) body?
        (fun _ _ _ => backendRefreshBoundary o)).1.status = 409 ∨
      (refreshPOST (some (Sum.inl aid)) apiUrl (some tok) body?
        (fun _ _ _ => backendRefreshBoundary o)).1.status = 429) := by
  rw [refreshPOST_ok aid apiUrl tok body? _ haid htok]
  rcases o with _ | _ | s <;>
    simp [backendRefreshBoundary]

/-- Witness for C3: a refresh denied as TooSoon with a 30 second wait
surfaces as HTTP 429 with a Retry-After header of 30. -/
theorem manual_refresh_http_mapping_witness :
    (refreshPOST (some (Sum.inl "acct1")) none (some "token1") none
      (fun _ _ _ => backendRefreshBoundary
        (RefreshOutcome.tooSoon 30))).1.status = 429 ∧
    (refreshPOST (some (Sum.inl "acct1")) none (some "token1") none
      (fun _ _ _ => backendRefreshBoundary
        (RefreshOutcome.tooSoon 30))).1.retryAfter = some (toString 30) := by
  have h := manual_refresh_http_mapping false (some 100) 130 60 false
    (RefreshOutcome.tooSoon 30) rfl "acct1" none "token1" none
    (by decide) (by decide)
  exact h.2.2.1 30 rfl

/-- Claim C8: a manualRefresh with force=false, invoked t seconds after the
start of the last successful run with t below minIntervalSeconds and no run
in progress, is denied TooSoon with the remaining wait
minIntervalSeconds - t, both at the lock manager and as the structured
coordinator result. -/
theorem manual_refresh_throttle (t0 t minIntervalSeconds : Nat)
    (h : t < minIntervalSeconds) :
    tryAcquire false (some t0) (t0 + t) minIntervalSeconds false =
      AcquireResult.deniedTooSoon (minIntervalSeconds - t) ∧
    manualRefresh false (some t0) (t0 + t) minIntervalSeconds false =
      RefreshOutcome.tooSoon (minIntervalSeconds - t) := by
  have hsub : t0 + t - t0 = t := by omega
  have hacq : tryAcquire false (some t0) (t0 + t) minIntervalSeconds false =
      AcquireResult.deniedTooSoon (minIntervalSeconds - t) := by
    simp [tryAcquire, hsub, h]
  refine ⟨hacq, ?_⟩
  rw [manualRefresh, hacq]

/-- Witness for C8: 5 seconds after a successful run start, with a minimum
interval of 60 seconds, a non-forced manualRefresh is denied TooSoon with
55 seconds of wait. -/
theorem manual_refresh_throttle_witness :
    tryAcquire false (some 100) 105 60 false =
      AcquireResult.deniedTooSoon 55 ∧
    manualRefresh false (some 100) 105 60 false =
      RefreshOutcome.tooSoon 55 := by
  have h := manual_refresh_throttle 100 5 60 (by decide)
  simpa using h

/-- An upsert keyed on `key` preserves pairwise-distinct keys. -/
lemma uniqueBy_upsertBy {α κ : Type} [DecidableEq κ] (key : α → κ)
    (t : List α) (r : α) (h : UniqueBy key t) :
    UniqueBy key (upsertBy key t r) := by
  rw [upsertBy]
  by_cases hmem : t.any (fun s => decide (key s = key r)) = true
  · rw [if_pos hmem]
    refine List.Pairwise.map _ ?_ h
    intro a b hab
    dsimp only
    by_cases ha : key a = key r <;> by_cases hb : key b = key r
    · exact absurd (ha.trans hb.symm) hab
    · rw [if_pos ha, if_neg hb, ← ha]
      exact hab
    · rw [if_neg ha, if_pos hb, ← hb]
      exact hab
    · rw [if_neg ha, if_neg hb]
      exact hab
  · rw [if_neg hmem]
    rw [UniqueBy, List.pairwise_append]
    refine ⟨h, List.pairwise_singleton _ _, ?_⟩
    intro a ha b hb
    rw [List.mem_singleton] at hb
    subst hb
    intro hc
    apply hmem
    rw [List.any_eq_true]
    exact ⟨a, ha, by simp [hc]⟩

/-- In a table with pairwise-distinct keys containing some row with key
`k`, exactly one row has key `k`. -/
lemma countP_key_eq_one {α κ : Type} [DecidableEq κ] (key : α → κ) (k : κ) :
    ∀ t : List α, UniqueBy key t → (∃ s ∈ t, key s = k) →
      t.countP (fun s => decide (key s = k)) = 1 := by
  intro t
  induction t with
  | nil =>
      intro _ hex
      simp at hex
  | cons a t ih =>
      intro hu hex
      rw [UniqueBy, List.pairwise_cons] at hu
      obtain ⟨ha, hu2⟩ := hu
      rw [List.countP_cons]
      by_cases hk : key a = k
      · have h0 : t.countP (fun s => decide (key s = k)) = 0 := by
          rw [List.countP_eq_zero]
          intro b hb
          simp only [decide_eq_true_eq]
          intro hc
          exact (ha b hb) (hk.trans hc.symm)
        simp [h0, hk]
      · have hex2 : ∃ s ∈ t, key s = k := by
          rcases hex with ⟨s, hs, hks⟩
          rcases List.mem_cons.mp hs with rfl | hs2
          · exact absurd hks hk
          · exact ⟨s, hs2, hks⟩
        rw [ih hu2 hex2]
        simp [hk]

/-- After an upsert into a table with pairwise-distinct keys, exactly one
row carries the written row's key: the write went into the unique row (or
created it), not into a duplicate. -/
lemma countP_key_upsertBy {α κ : Type} [DecidableEq κ] (key : α → κ)
    (t : List α) (r : α) (h : UniqueBy key t) :
    (upsertBy key t r).countP (fun s => decide (key s = key r)) = 1 := by
  rw [upsertBy]
  by_cases hmem : t.any (fun s => decide (key s = key r)) = true
  · rw [if_pos hmem, List.countP_map]
    have hcongr : ∀ s ∈ t,
        (((fun s => decide (key s = key r)) ∘
          (fun s => if key s = key r then r else s)) s = true ↔
        (fun s => decide (key s = key r)) s = true) := by
      intro s _
      by_cases hs : key s = key r <;> simp [hs]
    rw [List.countP_congr hcongr]
    rw [List.any_eq_true] at hmem
    obtain ⟨s0, hs0, hk0⟩ := hmem
    rw [decide_eq_true_eq] at hk0
    exact countP_key_eq_one key (key r) t h ⟨s0, hs0, hk0⟩
  · rw [if_neg hmem, List.countP_append]
    have h0 : t.countP (fun s => decide (key s = key r)) = 0 := by
      rw [List.countP_eq_zero]
      intro b hb
      simp only [decide_eq_true_eq]
      intro hc
      exact hmem (List.any_eq_true.mpr ⟨b, hb, by simp [hc]⟩)
    simp [h0]

/-- An upsert never removes a key from the table. -/
lemma hasKey_upsertBy {α κ : Type} [DecidableEq κ] (key : α → κ)
    (t : List α) (r : α) (k : κ) (h : HasKey key t k) :
    HasKey key (upsertBy key t r) k := by
  obtain ⟨s, hs, hks⟩ := h
  rw [upsertBy]
  by_cases hmem : t.any (fun s => decide (key s = key r)) = true
  · rw [if_pos hmem]
    by_cases hsr : key s = key r
    · exact ⟨r, List.mem_map.mpr ⟨s, hs, by rw [if_pos hsr]⟩,
        by rw [← hsr, hks]⟩
    · exact ⟨s, List.mem_map.mpr ⟨s, hs, by rw [if_neg hsr]⟩, hks⟩
  · rw [if_neg hmem]
    exact ⟨s, List.mem_append_left _ hs, hks⟩

/-- Any sequence of upserts preserves pairwise-distinct keys. -/
lemma uniqueBy_foldl_upsertBy {α κ : Type} [DecidableEq κ] (key : α → κ)
    (t : List α) (rs : List α) (h : UniqueBy key t) :
    UniqueBy key (rs.foldl (upsertBy key) t) := by
  induction rs generalizing t with
  | nil => exact h
  | cons r rs ih => exact ih _ (uniqueBy_upsertBy key t r h)

/-- No sequence of upserts removes a key from the table. -/
lemma hasKey_foldl_upsertBy {α κ : Type} [DecidableEq κ] (key : α → κ)
    (t : List α) (rs : List α) (k : κ) (h : HasKey key t k) :
    HasKey key (rs.foldl (upsertBy key) t) k := by
  induction rs generalizing t with
  | nil => exact h
  | cons r rs ih => exact ih _ (hasKey_upsertBy key t r k h)

/-- Claim C4: at most one DailyStat row per (account, calendar day); the
upsert writes into that unique row rather than inserting a duplicate, and
every sequence of writes preserves the invariant. -/
theorem daily_stats_upsert_unique (t : List DailyStat) (r : DailyStat)
    (writes : List DailyStat) (h : UniqueBy dailyKey t) :
    UniqueBy dailyKey (upsertDailyStat t r) ∧
    (upsertDailyStat t r).countP
      (fun s => decide (dailyKey s = dailyKey r)) = 1 ∧
    UniqueBy dailyKey (writes.foldl upsertDailyStat t) :=
  ⟨uniqueBy_upsertBy dailyKey t r h, countP_key_upsertBy dailyKey t r h,
    uniqueBy_foldl_upsertBy dailyKey t writes h⟩

/-- Witness for C4: recomputing day (1, month 24 day 1) over a table that
already holds that day leaves exactly one row for the key. -/
theorem daily_stats_upsert_unique_witness :
    UniqueBy dailyKey (upsertDailyStat [dayRow 1 (Day.mk 24 1) 100]
      (dayRow 1 (Day.mk 24 1) 110)) ∧
    (upsertDailyStat [dayRow 1 (Day.mk 24 1) 100]
      (dayRow 1 (Day.mk 24 1) 110)).countP
      (fun s => decide (dailyKey s = dailyKey (dayRow 1 (Day.mk 24 1) 110)))
        = 1 := by
  have h := daily_stats_upsert_unique [dayRow 1 (Day.mk 24 1) 100]
    (dayRow 1 (Day.mk 24 1) 110) [] (by simp [UniqueBy])
  exact ⟨h.1, h.2.1⟩

/-- Claim C6: across any sequence of collection runs, overlapping fetch
windows included, post rows keep pairwise-distinct external post ids, and a
post id present in the table is never deleted by the runs. -/
theorem posts_unique_never_deleted (t : List Post)
    (runs : List (List Post)) (h : UniqueBy postKey t) :
    UniqueBy postKey (runs.foldl runCollection t) ∧
    (∀ k, HasKey postKey t k →
      HasKey postKey (runs.foldl runCollection t) k) := by
  induction runs generalizing t with
  | nil => exact ⟨h, fun _ hk => hk⟩
  | cons ps runs ih =>
      have h1 : UniqueBy postKey (runCollection t ps) :=
        uniqueBy_foldl_upsertBy postKey t ps h
      obtain ⟨hu, hk⟩ := ih (runCollection t ps) h1
      refine ⟨hu, fun k hkey => hk k ?_⟩
      exact hasKey_foldl_upsertBy postKey t ps k hkey

/-- Witness for C6: two runs with overlapping windows both deliver post
"p1"; the table keeps distinct post ids and still holds "p0". -/
theorem posts_unique_never_deleted_witness :
    UniqueBy postKey
      ([[Post.mk "p1" 1 "image" none 10],
        [Post.mk "p1" 1 "image" none 10,
         Post.mk "p2" 1 "reel" none 11]].foldl runCollection
        [Post.mk "p0" 1 "video" none 5]) ∧
    HasKey postKey
      ([[Post.mk "p1" 1 "image" none 10],
        [Post.mk "p1" 1 "image" none 10,
         Post.mk "p2" 1 "reel" none 11]].foldl runCollection
        [Post.mk "p0" 1 "video" none 5]) "p0" := by
  have h := posts_unique_never_deleted [Post.mk "p0" 1 "video" none 5]
    [[Post.mk "p1" 1 "image" none 10],
     [Post.mk "p1" 1 "image" none 10, Post.mk "p2" 1 "reel" none 11]]
    (by simp [UniqueBy])
  exact ⟨h.1, h.2 "p0" ⟨Post.mk "p0" 1 "video" none 5, by simp, rfl⟩⟩

/-- Counterexample to claim C5 as stated: two daily tables that agree on
account 1's rows of month 24 but differ on month 23 produce different
MonthlyStat values for month 24 (the follower growth is 10 against 110), so
the monthly stats are not derived entirely from the DailyStat rows of their
own month. -/
theorem monthly_from_month_rows_counterexample :
    monthDailyRows dailyTableWithPrev 1 24 =
      monthDailyRows dailyTableNoPrev 1 24 ∧
    recomputeMonthly dailyTableWithPrev 1 24 ≠
      recomputeMonthly dailyTableNoPrev 1 24 := by
  refine ⟨rfl, ?_⟩
  intro hEq
  have h1 : (recomputeMonthly dailyTableWithPrev 1 24).follower_growth =
    10 := rfl
  have h2 : (recomputeMonthly dailyTableNoPrev 1 24).follower_growth =
    110 := rfl
  rw [hEq, h2] at h1
  exact absurd h1 (by decide)

/-- Claim C5 (amended): at most one MonthlyStat row per (account, calendar
month), preserved by the monthly upsert; and the derived monthly values are
determined by the account's DailyStat rows of the target month and of the
previous month (the latter entering only through the average follower
baseline for growth and growth rate). -/
theorem monthly_stats_unique_and_derivation (t1 t2 : List DailyStat)
    (a : Nat) (m : Int) (mt : List MonthlyStatsRow) (row : MonthlyStatsRow)
    (hm : monthDailyRows t1 a m = monthDailyRows t2 a m)
    (hprev : monthDailyRows t1 a (m - 1) = monthDailyRows t2 a (m - 1))
    (hu : UniqueBy monthlyKey mt) :
    recomputeMonthly t1 a m = recomputeMonthly t2 a m ∧
    UniqueBy monthlyKey (upsertMonthlyStat mt row) := by
  refine ⟨?_, uniqueBy_upsertBy monthlyKey mt row hu⟩
  simp only [recomputeMonthly, hm, hprev]

/-- Witness for the amended C5: adding another account's row changes
nothing in account 1's month-24 stats, and upserting a month-24 row next to
a month-12 row keeps the keys distinct. -/
theorem monthly_stats_unique_and_derivation_witness :
    recomputeMonthly dailyTableWithPrev 1 24 =
      recomputeMonthly dailyTableOtherAccount 1 24 ∧
    UniqueBy monthlyKey (upsertMonthlyStat [mkMonthlyRow 1 12 5 0 0]
      (mkMonthlyRow 1 24 110 0 0)) :=
  monthly_stats_unique_and_derivation dailyTableWithPrev
    dailyTableOtherAccount 1 24 [mkMonthlyRow 1 12 5 0 0]
    (mkMonthlyRow 1 24 110 0 0) rfl rfl (by simp [UniqueBy])

/-- Claim C7: the normalizer clamps every negative counter to zero in the
persisted snapshot, and the engagement rate is total_interactions / reach
rounded to 2 decimals when reach is positive, and 0 when reach is zero. -/
theorem normalizer_clamps_and_engagement_rate (r : RawMetrics) :
    ((normalizeMetrics r).likes = max r.likes 0 ∧
     (normalizeMetrics r).comments = max r.comments 0 ∧
     (normalizeMetrics r).saved = max r.saved 0 ∧
     (normalizeMetrics r).shares = max r.shares 0 ∧
     (normalizeMetrics r).views = max r.views 0 ∧
     (normalizeMetrics r).reach = max r.reach 0 ∧
     (normalizeMetrics r).total_interactions =
       max r.total_interactions 0 ∧
     (normalizeMetrics r).follows = max r.follows 0 ∧
     (normalizeMetrics r).profile_visits = max r.profile_visits 0 ∧
     (normalizeMetrics r).profile_activity = max r.profile_activity 0) ∧
    (r.likes < 0 → (normalizeMetrics r).likes = 0) ∧
    (0 < r.reach → 0 ≤ r.total_interactions →
      (normalizeMetrics r).engagement_rate =
        round2 ((r.total_interactions : ℚ) / (r.reach : ℚ))) ∧
    (r.reach = 0 → (normalizeMetrics r).engagement_rate = 0) := by
  refine ⟨⟨rfl, rfl, rfl, rfl, rfl, rfl, rfl, rfl, rfl, rfl⟩,
    ?_, ?_, ?_⟩
  · intro h
    show max r.likes 0 = 0
    exact max_eq_right h.le
  · intro h1 h2
    show (if 0 < max r.reach 0 then
      round2 (((max r.total_interactions 0 : Int) : ℚ) /
        ((max r.reach 0 : Int) : ℚ))
      else 0) = _
    rw [max_eq_left h1.le, max_eq_left h2, if_pos h1]
  · intro h
    show (if 0 < max r.reach 0 then
      round2 (((max r.total_interactions 0 : Int) : ℚ) /
        ((max r.reach 0 : Int) : ℚ))
      else 0) = 0
    rw [h]
    simp

/-- Witness for C7: the spec's normalization-bounds example, likes of -5
with reach 0: the snapshot stores 0 likes and a 0 engagement rate. -/
theorem normalizer_clamps_witness :
    (normalizeMetrics rawNegExample).likes = 0 ∧
    (normalizeMetrics rawNegExample).engagement_rate = 0 := by
  have h := normalizer_clamps_and_engagement_rate rawNegExample
  exact ⟨h.2.1 (by decide), h.2.2.2 rfl⟩

end InstagramAnalysis
